import Mathlib

/-!
Verification development for the Sankhya note-header synchronization engine
(`src/lib/sync-cabecalho-nota-service.ts`).

The TypeScript source is shallowly embedded as executable Lean definitions:

* the paginated retrieval `buscarCabecalhoNotaSankhya` (page loop with
  in-place 401/403 token renewal plus an outer bounded retry layer) is
  modelled with an explicit fetch oracle `script : Nat → Nat → Nat →
  FetchOutcome` giving, for each fetch attempt index, page index and token
  generation, the outcome of the remote call.  The `while (hasMoreData)`
  loop is a priori unbounded (its 401/403 branch retries the same page with
  no counter), so the loop is given explicit fuel; running out of fuel is
  the `none` result, a modelling artifact distinguishing divergence from
  every real outcome of the code.
* pacing delays (`setTimeout`) are recorded in a ghost `waits` list holding
  the requested durations in milliseconds, in order.
* the mirror table `AS_CABECALHO_NOTA` is a `List MirrorRow`; SQL UPDATE is
  a key-guarded map, INSERT an append, and the `COUNT(*)` existence probe a
  `List.any` over the key predicate.
* fallible per-record database work is driven by a fault oracle
  `bad : Nat → Bool` (keyed by NUNOTA): `bad` models one of the three
  per-record `connection.execute` calls throwing (e.g. a constraint
  violation), in which case the record makes no change to the table, which
  is what the thrown-before-any-count/row-effect paths of the source do.
* wall-clock timestamps are abstract `Nat` instants supplied as `now`;
  the `dataInicio`/`dataFim`/`duracao` fields of `SyncResult` are not
  modelled (no claim mentions them).
-/

/-- One note header as produced by the retrieval pipeline (interface
`CabecalhoNota` of the source).  The TS interface marks `CODTIPOPER`,
`CODPARC` and `TIPMOV` as required, but the dynamic field mapper
(lines 116-126) simply omits fields absent from the payload, so at runtime
every business field may be `undefined`; all of them are therefore
`Option`s here, with `none` standing for `undefined`.  `NUNOTA` is the
record identifier and is kept total, as every claim keys records by it. -/
structure CabecalhoNota where
  NUNOTA : Nat
  CODTIPOPER : Option Nat := none
  CODTIPVENDA : Option Nat := none
  CODPARC : Option Nat := none
  CODVEND : Option Nat := none
  VLRNOTA : Option Int := none
  DTNEG : Option String := none
  TIPMOV : Option String := none
deriving Repr, DecidableEq

/-- The observable shape of a thrown axios/JS error as the source inspects
it: `error.code`, `error.message`, and `error.response?.status`
(`none` when there was no HTTP response). -/
structure ErrObj where
  code : Option String := none
  message : String := ""
  status : Option Nat := none
deriving Repr, DecidableEq

/-- Outcome of one remote page fetch (one iteration of the inner `try` of
`buscarCabecalhoNotaSankhya`):
* `ok records hasMoreResult` — a 2xx response whose entities were mapped to
  `records`, with the API's `hasMoreResult` indicator;
* `noEntity` — a well-formed response with no
  `responseBody.entities.entity` (lines 106-110: pagination ends);
* `err e` — the fetch threw `e` (HTTP error status, network error, or the
  "Nenhum contrato ativo encontrado" error thrown before the request). -/
inductive FetchOutcome where
  | ok (records : List CabecalhoNota) (hasMoreResult : Bool)
  | noEntity
  | err (e : ErrObj)
deriving Repr, DecidableEq

/-- Result of one run of the page loop: the accumulated records or the
propagated error, the next global fetch-attempt index, and the pacing
delays requested during the loop. -/
structure PageRunDone where
  result : Except ErrObj (List CabecalhoNota)
  kNext : Nat
  waits : List Nat
deriving Repr

/-- Final result of `buscarCabecalhoNotaSankhya`: the snapshot or the
final descriptive error message, all pacing/backoff delays requested, and
the number of whole-retrieval attempts consumed (`retryCount + 1` of the
attempt that finished). -/
structure BuscarDone where
  result : Except String (List CabecalhoNota)
  waits : List Nat
  attempts : Nat
deriving Repr

/-- `MAX_RETRIES` of the source (line 55). -/
def MAX_RETRIES : Nat := 3

/-- `RETRY_DELAY` of the source (line 56), in milliseconds. -/
def RETRY_DELAY : Nat := 2000

/-- The `while (hasMoreData)` page loop of `buscarCabecalhoNotaSankhya`
(lines 66-155).  `script k page tok` is the outcome of the `k`-th fetch
attempt overall, issued for page `page` with token generation `tok`
(`obterToken(idSistema, true)` is modelled as producing generation
`tok + 1`).  State: `k` attempt counter, `page` = `currentPage`, `tok` =
`currentToken`, `acc` = `allCabecalhos`, `ws` = ghost list of pacing
delays.  The 401/403 branch (lines 144-149) renews the token, records the
1000ms pacing delay and retries the same page, keeping `acc`; any other
error exits the loop and propagates. -/
def pageLoop (script : Nat → Nat → Nat → FetchOutcome) :
    Nat → Nat → Nat → Nat → List CabecalhoNota → List Nat → Option PageRunDone
  | 0, _, _, _, _, _ => none
  | fuel+1, k, page, tok, acc, ws =>
    match script k page tok with
    | FetchOutcome.noEntity => some ⟨Except.ok acc, k + 1, ws⟩
    | FetchOutcome.ok recs hasMore =>
      let acc2 := acc ++ recs
      if recs = [] ∨ hasMore = false then
        some ⟨Except.ok acc2, k + 1, ws⟩
      else
        pageLoop script fuel (k + 1) (page + 1) tok acc2 (ws ++ [500])
    | FetchOutcome.err e =>
      if e.status = some 401 ∨ e.status = some 403 then
        pageLoop script fuel (k + 1) page (tok + 1) acc (ws ++ [1000])
      else
        some ⟨Except.error e, k + 1, ws⟩

/-- Does the character list start with the pattern? (Structural helper
for JS `String.prototype.includes`; written over `List Char` so that it
reduces definitionally.) -/
def startsWithChars : List Char → List Char → Bool
  | [], _ => true
  | _ :: _, [] => false
  | p :: ps, t :: ts => decide (p = t) && startsWithChars ps ts

/-- Does the character list contain the pattern as a contiguous
substring?  JS `text.includes(pat)`. -/
def containsSub (pat : List Char) : List Char → Bool
  | [] => decide (pat = [])
  | t :: ts => startsWithChars pat (t :: ts) || containsSub pat ts

/-- `error.message?.includes('timeout')` of line 169. -/
def hasTimeoutWord (m : String) : Bool :=
  containsSub (("timeout").data) m.data

/-- `error.response?.status >= 500` of line 170 (`undefined >= 500` is
false in JS). -/
def status5xx (e : ErrObj) : Bool :=
  match e.status with
  | some s => decide (500 ≤ s)
  | none => false

/-- The transient-failure classification of the outer catch
(lines 165-171): `ECONNABORTED`, `ETIMEDOUT`, `ENOTFOUND`, a message
containing `timeout`, or a 5xx response status. -/
def isTransient (e : ErrObj) : Bool :=
  decide (e.code = some ("ECONNABORTED")) ||
  decide (e.code = some ("ETIMEDOUT")) ||
  decide (e.code = some ("ENOTFOUND")) ||
  hasTimeoutWord e.message ||
  status5xx e

/-- The final error message built at line 186. -/
def erroFinalMsg (tentativas : Nat) (m : String) : String :=
  ("Erro ao buscar cabeçalhos de nota após ") ++ toString tentativas ++
    (" tentativas: ") ++ m

/-- The outer retry layer of `buscarCabecalhoNotaSankhya`
(lines 160-187), written as the source's recursion on `retryCount`.
`aFuel` bounds the recursion depth; since the function only re-invokes
itself while `retryCount < MAX_RETRIES - 1`, an initial `aFuel` of
`MAX_RETRIES` can never run out.  On a page-loop error: if the retry
budget remains and the error is transient, wait `RETRY_DELAY * (retryCount
+ 1)` and re-invoke from page 0 — with a force-renewed token when the
error carries status 401/403 (lines 176-180), and otherwise with the
`bearerToken` this invocation received (line 182, NOT the token the page
loop may have renewed).  Otherwise fail with the descriptive message. -/
def buscarAux (script : Nat → Nat → Nat → FetchOutcome) (pageFuel : Nat) :
    Nat → Nat → Nat → Nat → List Nat → Option BuscarDone
  | 0, _, _, _, _ => none
  | aFuel+1, k, tok, retryCount, ws =>
    match pageLoop script pageFuel k 0 tok [] [] with
    | none => none
    | some d =>
      let ws2 := ws ++ d.waits
      match d.result with
      | Except.ok recs => some ⟨Except.ok recs, ws2, retryCount + 1⟩
      | Except.error e =>
        if retryCount < MAX_RETRIES - 1 ∧ isTransient e = true then
          if e.status = some 401 ∨ e.status = some 403 then
            buscarAux script pageFuel aFuel d.kNext (tok + 1) (retryCount + 1)
              (ws2 ++ [RETRY_DELAY * (retryCount + 1)])
          else
            buscarAux script pageFuel aFuel d.kNext tok (retryCount + 1)
              (ws2 ++ [RETRY_DELAY * (retryCount + 1)])
        else
          some ⟨Except.error (erroFinalMsg (retryCount + 1) e.message), ws2,
            retryCount + 1⟩

/-- `buscarCabecalhoNotaSankhya(idSistema, bearerToken)` (line 50): the
whole retrieval, starting at `retryCount = 0` with token generation
`tok`. -/
def buscarCabecalhoNotaSankhya (script : Nat → Nat → Nat → FetchOutcome)
    (pageFuel aFuel tok : Nat) : Option BuscarDone :=
  buscarAux script pageFuel aFuel 0 tok 0 []

/-- The stored negotiation date: the arguments the source passes to
`new Date(year, month - 1, day)` (the `month - 1` re-shift is not applied;
`month` here is the human 1-based month).  JS `Date` would normalize
calendar-invalid combinations such as February 31, but no claim ever
equates two distinct `(year, month, day)` triples, so the triple itself is
the stored value. -/
structure OracleDate where
  year : Int
  month : Int
  day : Int
deriving Repr, DecidableEq

/-- JS `String.prototype.split(sep)` with a one-character separator,
over character lists: `"a-b-" → ["a","b",""]`, `"" → [""]`. -/
def splitOnCharAux (sep : Char) : List Char → List Char → List (List Char)
  | [], cur => [cur.reverse]
  | x :: xs, cur =>
    if x = sep then cur.reverse :: splitOnCharAux sep xs []
    else splitOnCharAux sep xs (x :: cur)

/-- `text.split(sep)` for a one-character separator. -/
def splitOnChar (sep : Char) (s : List Char) : List (List Char) :=
  splitOnCharAux sep s []

/-- JS `String.prototype.trim()` over character lists. -/
def trimChars (s : List Char) : List Char :=
  (((s.dropWhile Char.isWhitespace).reverse).dropWhile Char.isWhitespace).reverse

/-- Decimal value of a digit string. -/
def digitsToNat (s : List Char) : Nat :=
  s.foldl (fun a c => a * 10 + (c.toNat - ('0').toNat)) 0

/-- JS `Number(s)` restricted to the strings the date parser feeds it
(pieces of a split date string): the empty/blank string is `0`, a string
of decimal digits is its value, anything else (including the other date
format's separators, letters, signs) is `NaN`, modelled as `none`. -/
def jsNumber (s : List Char) : Option Int :=
  let t := trimChars s
  if t = [] then some 0
  else if t.all Char.isDigit then some (Int.ofNat (digitsToNat t))
  else none

/-- The validation-and-construction step the source duplicates verbatim
in both format branches: `!year || !month || !day || month < 1 || month >
12 || day < 1 || day > 31` yields `null` (a missing destructured
component is `undefined`, which fails `!x` just as `NaN` and `0` do),
otherwise the record stores `new Date(year, month - 1, day)`. -/
def validateYMD : Option Int → Option Int → Option Int → Option OracleDate
  | some y, some m, some d =>
    if y = 0 ∨ m = 0 ∨ d = 0 ∨ m < 1 ∨ 12 < m ∨ d < 1 ∨ 31 < d then none
    else some ⟨y, m, d⟩
  | _, _, _ => none

/-- `converterDataParaOracle` (lines 237-270; the copy in the insert
branch, lines 303-342, is the same function with extra logging).  The
argument is `string | undefined`; `none` is `undefined`.  JS `!dataStr`
is true for `undefined` and for the empty string.  The separator test
`includes('-')` / `includes('/')` runs on the whole trimmed string; the
date part is what precedes the first space; the three components are fed
to `Number`, destructured in the order the format implies, and
validated by `validateYMD`. -/
def converterDataParaOracle (dataStr : Option String) : Option OracleDate :=
  match dataStr with
  | none => none
  | some s =>
    if s.data = [] then none
    else
      let dtnegStr := trimChars s.data
      if dtnegStr.contains '-' then
        let datePart := (splitOnChar (' ') dtnegStr).headD []
        let comps := (splitOnChar ('-') datePart).map jsNumber
        validateYMD (comps.getD 0 none) (comps.getD 1 none) (comps.getD 2 none)
      else if dtnegStr.contains '/' then
        let datePart := (splitOnChar (' ') dtnegStr).headD []
        let comps := (splitOnChar ('/') datePart).map jsNumber
        validateYMD (comps.getD 2 none) (comps.getD 1 none) (comps.getD 0 none)
      else none

/-- One row of the mirror table `AS_CABECALHO_NOTA`. `SANKHYA_ATUAL` is
the `'S'`/`'N'` active flag; `DT_ULT_CARGA` and `DT_CRIACAO` are the
refresh and creation instants. -/
structure MirrorRow where
  ID_SISTEMA : Nat
  NUNOTA : Nat
  CODTIPOPER : Option Nat := none
  CODTIPVENDA : Option Nat := none
  CODPARC : Option Nat := none
  CODVEND : Option Nat := none
  VLRNOTA : Option Int := none
  DTNEG : Option OracleDate := none
  TIPMOV : Option String := none
  SANKHYA_ATUAL : Char := 'S'
  DT_ULT_CARGA : Nat := 0
  DT_CRIACAO : Nat := 0
deriving Repr, DecidableEq

/-- JS `v || null` on an optional numeric bind value: `undefined` and `0`
become `null`. -/
def orNullNat : Option Nat → Option Nat
  | some 0 => none
  | none => none
  | some n => some n

/-- JS `v || null` on an optional monetary bind value. -/
def orNullInt : Option Int → Option Int
  | none => none
  | some v => if v = 0 then none else some v

/-- JS `v || null` on an optional string bind value: `undefined` and the
empty string become `null`. -/
def orNullStr : Option String → Option String
  | none => none
  | some s => if s = ("") then none else some s

/-- The key predicate of the `WHERE ID_SISTEMA = :idSistema AND NUNOTA =
:nunota` clauses. -/
def keyMatch (t nunota : Nat) (r : MirrorRow) : Bool :=
  decide (r.ID_SISTEMA = t ∧ r.NUNOTA = nunota)

/-- The UPDATE of lines 275-299: refresh every business field (with
`|| null` applied exactly to `CODTIPVENDA`, `CODVEND` and `VLRNOTA`;
`CODTIPOPER`, `CODPARC` and `TIPMOV` are bound raw), set the row active
and stamp the refresh time.  Key fields and `DT_CRIACAO` are untouched. -/
def updateRowOf (now : Nat) (c : CabecalhoNota) (r : MirrorRow) : MirrorRow :=
  { r with
    CODTIPOPER := c.CODTIPOPER
    CODTIPVENDA := orNullNat c.CODTIPVENDA
    CODPARC := c.CODPARC
    CODVEND := orNullNat c.CODVEND
    VLRNOTA := orNullInt c.VLRNOTA
    DTNEG := converterDataParaOracle c.DTNEG
    TIPMOV := c.TIPMOV
    SANKHYA_ATUAL := 'S'
    DT_ULT_CARGA := now }

/-- The INSERT of lines 346-368: a fresh active row with `|| null`
applied to every optional business bind (`CODTIPOPER`, `CODTIPVENDA`,
`CODPARC`, `CODVEND`, `VLRNOTA`, `TIPMOV`), both timestamps set to now. -/
def insertRowOf (now t : Nat) (c : CabecalhoNota) : MirrorRow :=
  { ID_SISTEMA := t
    NUNOTA := c.NUNOTA
    CODTIPOPER := orNullNat c.CODTIPOPER
    CODTIPVENDA := orNullNat c.CODTIPVENDA
    CODPARC := orNullNat c.CODPARC
    CODVEND := orNullNat c.CODVEND
    VLRNOTA := orNullInt c.VLRNOTA
    DTNEG := converterDataParaOracle c.DTNEG
    TIPMOV := orNullStr c.TIPMOV
    SANKHYA_ATUAL := 'S'
    DT_ULT_CARGA := now
    DT_CRIACAO := now }

/-- `marcarTodosComoNaoAtuais` (lines 193-207): one bulk UPDATE flipping
every currently-active row of the tenant to `'N'` and stamping the
refresh time; returns the new table and `rowsAffected`. -/
def marcarTodosComoNaoAtuais (now t : Nat) (db : List MirrorRow) :
    List MirrorRow × Nat :=
  (db.map fun r =>
      if r.ID_SISTEMA = t ∧ r.SANKHYA_ATUAL = 'S' then
        { r with SANKHYA_ATUAL := 'N', DT_ULT_CARGA := now }
      else r,
   (db.filter fun r => decide (r.ID_SISTEMA = t ∧ r.SANKHYA_ATUAL = 'S')).length)

/-- The `try` body of one record of `upsertCabecalhoNota` (lines
226-371): probe existence by key, then UPDATE every key-matching row or
INSERT a fresh one.  The result flag is `true` for an insert.  The fault
oracle `bad` makes one of the record's `connection.execute` calls throw;
the source increments no counter and commits no row change on that path,
so the faulting record leaves the table as it was. -/
def processRecordE (bad : Nat → Bool) (now t : Nat) (db : List MirrorRow)
    (c : CabecalhoNota) : Except String (List MirrorRow × Bool) :=
  if bad c.NUNOTA then
    Except.error (("Erro ao processar cabeçalho NUNOTA ") ++ toString c.NUNOTA)
  else if db.any (keyMatch t c.NUNOTA) then
    Except.ok
      (db.map fun r => if keyMatch t c.NUNOTA r then updateRowOf now c r else r,
       false)
  else
    Except.ok (db ++ [insertRowOf now t c], true)

/-- Result of `upsertCabecalhoNota`: the new table and the
`{ inseridos, atualizados }` counters. -/
structure UpsertRes where
  db : List MirrorRow
  inseridos : Nat
  atualizados : Nat
deriving Repr

/-- The record loop of `upsertCabecalhoNota`.  The source walks the
snapshot in `BATCH_SIZE`-sized slices with a commit after each batch;
commits are no-ops on the pure table state, so the batched double loop is
one record-by-record pass.  The per-record `catch` (lines 372-374) logs
and moves on, which is the `Except.error` arm. -/
def upsertGo (bad : Nat → Bool) (now t : Nat) :
    List MirrorRow → List CabecalhoNota → UpsertRes
  | db, [] => ⟨db, 0, 0⟩
  | db, c :: rest =>
    match processRecordE bad now t db c with
    | Except.error _ => upsertGo bad now t db rest
    | Except.ok (db', true) =>
      let r := upsertGo bad now t db' rest
      ⟨r.db, r.inseridos + 1, r.atualizados⟩
    | Except.ok (db', false) =>
      let r := upsertGo bad now t db' rest
      ⟨r.db, r.inseridos, r.atualizados + 1⟩

/-- `BATCH_SIZE` of the source (line 220). -/
def BATCH_SIZE : Nat := 100

/-- `upsertCabecalhoNota` (lines 212-383). -/
def upsertCabecalhoNota (bad : Nat → Bool) (now t : Nat)
    (db : List MirrorRow) (cabecalhos : List CabecalhoNota) : UpsertRes :=
  upsertGo bad now t db cabecalhos

/-- The record identifiers of the rows currently flagged active (`'S'`)
for tenant `t` — the notion of "active mirror rows" of the spec. -/
def activeIds (db : List MirrorRow) (t : Nat) : List Nat :=
  (db.filter fun r => decide (r.ID_SISTEMA = t ∧ r.SANKHYA_ATUAL = 'S')).map
    (fun r => r.NUNOTA)

/-- The `SyncResult` of the source (lines 17-29), minus the three
wall-clock fields (`dataInicio`, `dataFim`, `duracao`), which no claim
mentions. -/
structure SyncResult where
  success : Bool
  idSistema : Nat
  empresa : String
  totalRegistros : Nat
  registrosInseridos : Nat
  registrosAtualizados : Nat
  registrosDeletados : Nat
  erro : Option String := none
deriving Repr, DecidableEq

/-- The environment one orchestration run executes against: the outcomes
of every external collaborator the `try` block of
`sincronizarCabecalhoNotaPorEmpresa` awaits.  `Except.error m` means the
corresponding call throws an error whose `message` is `m`. -/
structure SyncEnv where
  /-- `obterToken(idSistema, true)` (line 403): the initial token
  generation, or a thrown error. -/
  tokenRes : Except String Nat
  /-- The fetch oracle driving `buscarCabecalhoNotaSankhya`. -/
  fetchScript : Nat → Nat → Nat → FetchOutcome
  /-- Fuel for the a-priori-unbounded page loop (modelling artifact). -/
  pageFuel : Nat
  /-- `getOracleConnection()` (line 405). -/
  connRes : Except String Unit
  /-- A thrown error of the bulk UPDATE of `marcarTodosComoNaoAtuais`. -/
  marcarFail : Option String
  /-- A thrown error of the orchestration-level `connection.commit()`
  (line 410). -/
  commitFail : Option String
  /-- The per-record fault oracle of `upsertCabecalhoNota`. -/
  bad : Nat → Bool
  /-- The timestamp `CURRENT_TIMESTAMP` resolves to during this run. -/
  now : Nat

/-- The `try` block of `sincronizarCabecalhoNotaPorEmpresa` (lines
395-450): token, retrieval, connection, stale-marking, upsert, commit,
then the success result.  `none` is page-loop fuel exhaustion (modelling
artifact); `some (Except.error m)` is a thrown error reaching the catch
block.  The best-effort `salvarLogSincronizacao` calls sit in their own
`try`/`catch` and influence nothing, so they are not modelled. -/
def sincronizarBody (env : SyncEnv) (idSistema : Nat) (empresa : String)
    (db : List MirrorRow) : Option (Except String (SyncResult × List MirrorRow)) :=
  match env.tokenRes with
  | Except.error m => some (Except.error m)
  | Except.ok tok =>
    match buscarCabecalhoNotaSankhya env.fetchScript env.pageFuel MAX_RETRIES tok with
    | none => none
    | some bd =>
      match bd.result with
      | Except.error m => some (Except.error m)
      | Except.ok cabecalhos =>
        match env.connRes with
        | Except.error m => some (Except.error m)
        | Except.ok _ =>
          match env.marcarFail with
          | some m => some (Except.error m)
          | none =>
            let marked := marcarTodosComoNaoAtuais env.now idSistema db
            let u := upsertCabecalhoNota env.bad env.now idSistema marked.1 cabecalhos
            match env.commitFail with
            | some m => some (Except.error m)
            | none =>
              some (Except.ok
                ({ success := true
                   idSistema := idSistema
                   empresa := empresa
                   totalRegistros := cabecalhos.length
                   registrosInseridos := u.inseridos
                   registrosAtualizados := u.atualizados
                   registrosDeletados := marked.2
                   erro := none }, u.db))

/-- The failure `SyncResult` built by the catch block (lines 487-499):
zeroed counters, `success: false`, and the thrown error's message. -/
def failResult (idSistema : Nat) (empresa : String) (m : String) : SyncResult :=
  { success := false
    idSistema := idSistema
    empresa := empresa
    totalRegistros := 0
    registrosInseridos := 0
    registrosAtualizados := 0
    registrosDeletados := 0
    erro := some m }

/-- `sincronizarCabecalhoNotaPorEmpresa` (lines 388-510): run the body;
any thrown error is converted by the catch block into a failure
`SyncResult` (after a rollback attempt, whose own failure is swallowed;
the mirror state a caller can observe after a failed run is not claimed
by the spec and is modelled as the initial table).  The `finally` block
only releases the connection, swallowing close errors, so the returned
value is exactly the body's result or the catch's. -/
def sincronizarCabecalhoNotaPorEmpresa (env : SyncEnv) (idSistema : Nat)
    (empresa : String) (db : List MirrorRow) :
    Option (SyncResult × List MirrorRow) :=
  match sincronizarBody env idSistema empresa db with
  | none => none
  | some (Except.ok p) => some p
  | some (Except.error m) => some (failResult idSistema empresa m, db)

/-- The tenant loop of `sincronizarTodasEmpresas` (lines 541-549):
strictly serial, threading the mirror table, never stopping on a failed
tenant outcome (the per-tenant call cannot throw). -/
def runTenants (envOf : Nat → SyncEnv) :
    List MirrorRow → List (Nat × String) → Option (List SyncResult × List MirrorRow)
  | db, [] => some ([], db)
  | db, (t, nome) :: rest =>
    match sincronizarCabecalhoNotaPorEmpresa (envOf t) t nome db with
    | none => none
    | some (r, db') =>
      match runTenants envOf db' rest with
      | none => none
      | some (rs, db'') => some (r :: rs, db'')

/-- `sincronizarTodasEmpresas` (lines 515-571).  `enumRes` is the
enumeration phase (connection plus the `AD_CONTRATOS WHERE ATIVO = 'S'`
query) yielding the active tenants `(ID_EMPRESA, EMPRESA)`; when that
phase throws, the catch block at lines 559-561 RE-THROWS the error
(`throw error`), so the fault escapes to the caller — modelled as
`Except.error`.  An empty enumeration returns `[]` (line 535). -/
def sincronizarTodasEmpresas (enumRes : Except String (List (Nat × String)))
    (envOf : Nat → SyncEnv) (db : List MirrorRow) :
    Option (Except String (List SyncResult × List MirrorRow)) :=
  match enumRes with
  | Except.error m => some (Except.error m)
  | Except.ok tenants =>
    match runTenants envOf db tenants with
    | none => none
    | some p => some (Except.ok p)

/-- The fault-free per-record oracle: no `connection.execute` throws. -/
def noFault : Nat → Bool := fun _ => false

/-- A remote that serves the whole snapshot in one page and reports no
further pages. -/
def oneShotScript (cs : List CabecalhoNota) : Nat → Nat → Nat → FetchOutcome :=
  fun _ _ _ => FetchOutcome.ok cs false

/-- An orchestration environment in which every external collaborator
succeeds and the remote serves `cs` in one page; `bad` drives the
per-record faults. -/
def oneShotEnv (now : Nat) (cs : List CabecalhoNota) (bad : Nat → Bool) : SyncEnv :=
  { tokenRes := Except.ok 0
    fetchScript := oneShotScript cs
    pageFuel := 1
    connRes := Except.ok ()
    marcarFail := none
    commitFail := none
    bad := bad
    now := now }

/-- The error an expired credential produces at the page fetch. -/
def authErr401 : ErrObj :=
  { code := none, message := "Request failed with status code 401", status := some 401 }

/-- A remote on which every fetch attempt fails with status 401,
whatever the page and however often the token is renewed. -/
def const401Script : Nat → Nat → Nat → FetchOutcome :=
  fun _ _ _ => FetchOutcome.err authErr401

/-- A four-page remote whose credential generation 0 expires at page 2:
pages 0 and 1 are served, the first page-2 attempt gets 401, any renewed
token serves pages 2 and 3, and page 3 reports no further pages. -/
def expiryScript (p0 p1 p2 p3 : List CabecalhoNota) :
    Nat → Nat → Nat → FetchOutcome :=
  fun _ page tok =>
    match page with
    | 0 => FetchOutcome.ok p0 true
    | 1 => FetchOutcome.ok p1 true
    | 2 => if tok = 0 then FetchOutcome.err authErr401 else FetchOutcome.ok p2 true
    | _ => FetchOutcome.ok p3 false

/-- A remote on which every fetch attempt fails with the same error. -/
def constErrScript (e : ErrObj) : Nat → Nat → Nat → FetchOutcome :=
  fun _ _ _ => FetchOutcome.err e

/-- A remote whose first two fetch attempts fail with `e` and which then
serves the whole snapshot in one page. -/
def failTwiceScript (e : ErrObj) (cs : List CabecalhoNota) :
    Nat → Nat → Nat → FetchOutcome :=
  fun k _ _ => if k < 2 then FetchOutcome.err e else FetchOutcome.ok cs false

/-- A connection-reset failure as axios surfaces it: `code:
'ECONNRESET'`, no HTTP response. -/
def resetErr : ErrObj :=
  { code := some ("ECONNRESET"), message := "read ECONNRESET", status := none }

/-- A connect-timeout failure as axios surfaces it. -/
def timeoutErr : ErrObj :=
  { code := some ("ECONNABORTED"), message := "timeout of 60000ms exceeded",
    status := none }

/-- A note header carrying only its identifier (all optional fields
absent), for concrete scenarios. -/
def cab (id : Nat) : CabecalhoNota := { NUNOTA := id }

/-- The proposition "the page loop of `buscarCabecalhoNotaSankhya`
terminates against a remote on which every fetch attempt — with however
many renewed credentials — keeps answering 401": there is some amount of
fuel under which the loop produces an outcome. -/
def pageLoopTerminatesOnPersistentAuth : Prop :=
  ∃ fuel, (pageLoop const401Script fuel 0 0 0 [] []).isSome

/-- A record whose negotiation date has an invalid month and day. -/
def cabBadDate : CabecalhoNota := { NUNOTA := 10, DTNEG := some ("2024-13-40") }

/-- The (tenant, record) key of a mirror row. -/
def keyOf (r : MirrorRow) : Nat × Nat := (r.ID_SISTEMA, r.NUNOTA)

/-- Is some row of the table an active row of tenant `t` with record id
`id`? -/
def activeKey (t id : Nat) (r : MirrorRow) : Bool :=
  decide (r.ID_SISTEMA = t ∧ r.NUNOTA = id ∧ r.SANKHYA_ATUAL = 'S')

/-- An orchestration environment whose very first step — the forced
token renewal — throws. -/
def failTokenEnv : SyncEnv :=
  { tokenRes := Except.error ("jwt expired")
    fetchScript := fun _ _ _ => FetchOutcome.noEntity
    pageFuel := 1
    connRes := Except.ok ()
    marcarFail := none
    commitFail := none
    bad := noFault
    now := 0 }

/-! ### Lemmas about the page loop -/

theorem pageLoop_ok_step (script : Nat → Nat → Nat → FetchOutcome)
    (fuel k page tok : Nat) (acc : List CabecalhoNota) (ws : List Nat)
    (recs : List CabecalhoNota) (hasMore : Bool)
    (h : script k page tok = FetchOutcome.ok recs hasMore) :
    pageLoop script (fuel + 1) k page tok acc ws =
      if recs = [] ∨ hasMore = false then
        some ⟨Except.ok (acc ++ recs), k + 1, ws⟩
      else
        pageLoop script fuel (k + 1) (page + 1) tok (acc ++ recs) (ws ++ [500]) := by
  simp only [pageLoop, h]

theorem pageLoop_auth_step (script : Nat → Nat → Nat → FetchOutcome)
    (fuel k page tok : Nat) (acc : List CabecalhoNota) (ws : List Nat) (e : ErrObj)
    (h : script k page tok = FetchOutcome.err e)
    (hauth : e.status = some 401 ∨ e.status = some 403) :
    pageLoop script (fuel + 1) k page tok acc ws =
      pageLoop script fuel (k + 1) page (tok + 1) acc (ws ++ [1000]) := by
  simp only [pageLoop, h, if_pos hauth]

theorem pageLoop_const401_none :
    ∀ (fuel k page tok : Nat) (acc : List CabecalhoNota) (ws : List Nat),
      pageLoop const401Script fuel k page tok acc ws = none := by
  intro fuel
  induction fuel with
  | zero => intro k page tok acc ws; rfl
  | succ n ih =>
    intro k page tok acc ws
    rw [pageLoop_auth_step const401Script n k page tok acc ws authErr401 rfl
      (Or.inl rfl)]
    exact ih (k + 1) page (tok + 1) acc (ws ++ [1000])

theorem buscarAux_succ (script : Nat → Nat → Nat → FetchOutcome)
    (pf aFuel k tok rc : Nat) (ws : List Nat) :
    buscarAux script pf (aFuel + 1) k tok rc ws =
      match pageLoop script pf k 0 tok [] [] with
      | none => none
      | some d =>
        match d.result with
        | Except.ok recs => some ⟨Except.ok recs, ws ++ d.waits, rc + 1⟩
        | Except.error e =>
          if rc < MAX_RETRIES - 1 ∧ isTransient e = true then
            if e.status = some 401 ∨ e.status = some 403 then
              buscarAux script pf aFuel d.kNext (tok + 1) (rc + 1)
                ((ws ++ d.waits) ++ [RETRY_DELAY * (rc + 1)])
            else
              buscarAux script pf aFuel d.kNext tok (rc + 1)
                ((ws ++ d.waits) ++ [RETRY_DELAY * (rc + 1)])
          else
            some ⟨Except.error (erroFinalMsg (rc + 1) e.message), ws ++ d.waits,
              rc + 1⟩ := rfl

theorem pageLoop_constErr (e : ErrObj) (h1 : e.status ≠ some 401)
    (h3 : e.status ≠ some 403) (pf k page tok : Nat)
    (acc : List CabecalhoNota) (ws : List Nat) :
    pageLoop (constErrScript e) (pf + 1) k page tok acc ws =
      some ⟨Except.error e, k + 1, ws⟩ := by
  simp only [pageLoop, constErrScript]
  rw [if_neg]
  rintro (h | h)
  · exact h1 h
  · exact h3 h

theorem buscarAux_pageOk (script : Nat → Nat → Nat → FetchOutcome)
    (pf aFuel k tok rc : Nat) (ws : List Nat) (recs : List CabecalhoNota)
    (kn : Nat) (pws : List Nat)
    (h : pageLoop script pf k 0 tok [] [] = some ⟨Except.ok recs, kn, pws⟩) :
    buscarAux script pf (aFuel + 1) k tok rc ws =
      some ⟨Except.ok recs, ws ++ pws, rc + 1⟩ := by
  simp only [buscarAux_succ, h]

theorem buscarAux_pageErr_retry (script : Nat → Nat → Nat → FetchOutcome)
    (pf aFuel k tok rc : Nat) (ws : List Nat) (e : ErrObj) (kn : Nat)
    (pws : List Nat)
    (h : pageLoop script pf k 0 tok [] [] = some ⟨Except.error e, kn, pws⟩)
    (hrc : rc < MAX_RETRIES - 1) (ht : isTransient e = true)
    (hna : ¬ (e.status = some 401 ∨ e.status = some 403)) :
    buscarAux script pf (aFuel + 1) k tok rc ws =
      buscarAux script pf aFuel kn tok (rc + 1)
        ((ws ++ pws) ++ [RETRY_DELAY * (rc + 1)]) := by
  simp only [buscarAux_succ, h]
  rw [if_pos ⟨hrc, ht⟩, if_neg hna]

theorem buscarAux_pageErr_stop (script : Nat → Nat → Nat → FetchOutcome)
    (pf aFuel k tok rc : Nat) (ws : List Nat) (e : ErrObj) (kn : Nat)
    (pws : List Nat)
    (h : pageLoop script pf k 0 tok [] [] = some ⟨Except.error e, kn, pws⟩)
    (hstop : ¬ (rc < MAX_RETRIES - 1 ∧ isTransient e = true)) :
    buscarAux script pf (aFuel + 1) k tok rc ws =
      some ⟨Except.error (erroFinalMsg (rc + 1) e.message), ws ++ pws, rc + 1⟩ := by
  simp only [buscarAux_succ, h]
  rw [if_neg hstop]

theorem buscar_constErr_exhausts (e : ErrObj) (pf tok : Nat)
    (ht : isTransient e = true) (h1 : e.status ≠ some 401)
    (h3 : e.status ≠ some 403) :
    buscarCabecalhoNotaSankhya (constErrScript e) (pf + 1) 3 tok =
      some ⟨Except.error (erroFinalMsg 3 e.message), [2000, 4000], 3⟩ := by
  have hna : ¬ (e.status = some 401 ∨ e.status = some 403) := by
    rintro (h | h)
    · exact h1 h
    · exact h3 h
  have hp := pageLoop_constErr e h1 h3 pf
  calc buscarCabecalhoNotaSankhya (constErrScript e) (pf + 1) 3 tok
      = buscarAux (constErrScript e) (pf + 1) (2 + 1) 0 tok 0 [] := rfl
    _ = buscarAux (constErrScript e) (pf + 1) (1 + 1) (0 + 1) tok (0 + 1)
          (([] ++ []) ++ [RETRY_DELAY * (0 + 1)]) :=
        buscarAux_pageErr_retry _ _ _ _ _ _ _ _ _ _ (hp 0 0 tok [] [])
          (by decide) ht hna
    _ = buscarAux (constErrScript e) (pf + 1) (0 + 1) (0 + 1 + 1) tok (0 + 1 + 1)
          (((([] ++ []) ++ [RETRY_DELAY * (0 + 1)]) ++ []) ++
            [RETRY_DELAY * (0 + 1 + 1)]) :=
        buscarAux_pageErr_retry _ _ _ _ _ _ _ _ _ _ (hp (0 + 1) 0 tok [] [])
          (by decide) ht hna
    _ = some ⟨Except.error (erroFinalMsg (0 + 1 + 1 + 1) e.message),
          (((([] ++ []) ++ [RETRY_DELAY * (0 + 1)]) ++ []) ++
            [RETRY_DELAY * (0 + 1 + 1)]) ++ [], 0 + 1 + 1 + 1⟩ :=
        buscarAux_pageErr_stop _ _ _ _ _ _ _ _ _ _ (hp (0 + 1 + 1) 0 tok [] [])
          (by rintro ⟨h, _⟩; exact absurd h (by decide))
    _ = some ⟨Except.error (erroFinalMsg 3 e.message), [2000, 4000], 3⟩ := by
        norm_num [RETRY_DELAY]

theorem buscar_constErr_noRetry (e : ErrObj) (pf aFuel tok : Nat)
    (ht : isTransient e = false) (h1 : e.status ≠ some 401)
    (h3 : e.status ≠ some 403) :
    buscarCabecalhoNotaSankhya (constErrScript e) (pf + 1) (aFuel + 1) tok =
      some ⟨Except.error (erroFinalMsg 1 e.message), [], 1⟩ := by
  have := buscarAux_pageErr_stop (constErrScript e) (pf + 1) aFuel 0 tok 0 [] e 1
    [] (pageLoop_constErr e h1 h3 pf 0 0 tok [] [])
    (by rintro ⟨_, h⟩; rw [ht] at h; exact Bool.false_ne_true h)
  simpa [buscarCabecalhoNotaSankhya] using this

theorem pageLoop_failTwice_err (e : ErrObj) (cs : List CabecalhoNota)
    (h1 : e.status ≠ some 401) (h3 : e.status ≠ some 403)
    (pf k page tok : Nat) (acc : List CabecalhoNota) (ws : List Nat)
    (hk : k < 2) :
    pageLoop (failTwiceScript e cs) (pf + 1) k page tok acc ws =
      some ⟨Except.error e, k + 1, ws⟩ := by
  simp only [pageLoop, failTwiceScript, if_pos hk]
  rw [if_neg]
  rintro (h | h)
  · exact h1 h
  · exact h3 h

theorem pageLoop_failTwice_ok (e : ErrObj) (cs : List CabecalhoNota)
    (pf page tok : Nat) (acc : List CabecalhoNota) (ws : List Nat) :
    pageLoop (failTwiceScript e cs) (pf + 1) 2 page tok acc ws =
      some ⟨Except.ok (acc ++ cs), 2 + 1, ws⟩ := by
  have hs : failTwiceScript e cs 2 page tok = FetchOutcome.ok cs false := by
    simp [failTwiceScript]
  rw [pageLoop_ok_step _ _ _ _ _ _ _ _ _ hs, if_pos (Or.inr rfl)]

theorem buscar_failTwice_recovers (e : ErrObj) (cs : List CabecalhoNota)
    (pf tok : Nat) (ht : isTransient e = true) (h1 : e.status ≠ some 401)
    (h3 : e.status ≠ some 403) :
    buscarCabecalhoNotaSankhya (failTwiceScript e cs) (pf + 1) 3 tok =
      some ⟨Except.ok cs, [2000, 4000], 3⟩ := by
  have hna : ¬ (e.status = some 401 ∨ e.status = some 403) := by
    rintro (h | h)
    · exact h1 h
    · exact h3 h
  calc buscarCabecalhoNotaSankhya (failTwiceScript e cs) (pf + 1) 3 tok
      = buscarAux (failTwiceScript e cs) (pf + 1) (2 + 1) 0 tok 0 [] := rfl
    _ = buscarAux (failTwiceScript e cs) (pf + 1) (1 + 1) (0 + 1) tok (0 + 1)
          (([] ++ []) ++ [RETRY_DELAY * (0 + 1)]) :=
        buscarAux_pageErr_retry _ _ _ _ _ _ _ _ _ _
          (pageLoop_failTwice_err e cs h1 h3 pf 0 0 tok [] [] (by decide))
          (by decide) ht hna
    _ = buscarAux (failTwiceScript e cs) (pf + 1) (0 + 1) (0 + 1 + 1) tok (0 + 1 + 1)
          (((([] ++ []) ++ [RETRY_DELAY * (0 + 1)]) ++ []) ++
            [RETRY_DELAY * (0 + 1 + 1)]) :=
        buscarAux_pageErr_retry _ _ _ _ _ _ _ _ _ _
          (pageLoop_failTwice_err e cs h1 h3 pf (0 + 1) 0 tok [] [] (by decide))
          (by decide) ht hna
    _ = some ⟨Except.ok ([] ++ cs),
          (((([] ++ []) ++ [RETRY_DELAY * (0 + 1)]) ++ []) ++
            [RETRY_DELAY * (0 + 1 + 1)]) ++ [], 0 + 1 + 1 + 1⟩ :=
        buscarAux_pageOk _ _ _ _ _ _ _ _ _ _
          (pageLoop_failTwice_ok e cs pf 0 tok [] [])
    _ = some ⟨Except.ok cs, [2000, 4000], 3⟩ := by
        norm_num [RETRY_DELAY]

/-! ### Claim theorems: retrieval layer -/

/-- Claim C2, counterexample.  The claim lists "connection reset" among
the transient failures the outer layer retries up to 3 attempts.  On a
connection-reset failure (`code: 'ECONNRESET'`, as axios surfaces it) the
classification of lines 165-171 does not match, so the retrieval makes
exactly one attempt, performs no backoff wait, and fails immediately. -/
theorem claim_C2_counterexample :
    isTransient resetErr = false ∧
    buscarCabecalhoNotaSankhya (constErrScript resetErr) 5 3 0 =
      some ⟨Except.error (erroFinalMsg 1 ("read ECONNRESET")), [], 1⟩ :=
  ⟨rfl, rfl⟩

/-- Claim C2, amended.  The outer layer retries the whole retrieval from
page 0 at most 3 total attempts, only for failures the code classifies as
transient — `ECONNABORTED`, `ETIMEDOUT`, `ENOTFOUND`, an error message
containing "timeout", or a 5xx response (a connection reset,
`ECONNRESET`, is NOT classified transient) — with backoff delay
`RETRY_DELAY * attempt`; after 3 consecutive transient failures it fails
with the descriptive message, and a non-transient failure is never
retried (one attempt, no backoff).  Two transient failures followed by
success yield the full snapshot on the third attempt. -/
theorem claim_C2_amended :
    (∀ (e : ErrObj) (pf tok : Nat), isTransient e = true →
      e.status ≠ some 401 → e.status ≠ some 403 →
      buscarCabecalhoNotaSankhya (constErrScript e) (pf + 1) 3 tok =
        some ⟨Except.error (erroFinalMsg 3 e.message), [2000, 4000], 3⟩) ∧
    (∀ (e : ErrObj) (pf aFuel tok : Nat), isTransient e = false →
      e.status ≠ some 401 → e.status ≠ some 403 →
      buscarCabecalhoNotaSankhya (constErrScript e) (pf + 1) (aFuel + 1) tok =
        some ⟨Except.error (erroFinalMsg 1 e.message), [], 1⟩) ∧
    (∀ (e : ErrObj) (cs : List CabecalhoNota) (pf tok : Nat),
      isTransient e = true → e.status ≠ some 401 → e.status ≠ some 403 →
      buscarCabecalhoNotaSankhya (failTwiceScript e cs) (pf + 1) 3 tok =
        some ⟨Except.ok cs, [2000, 4000], 3⟩) ∧
    isTransient timeoutErr = true ∧ isTransient resetErr = false := by
  refine ⟨?_, ?_, ?_, rfl, rfl⟩
  · intro e pf tok ht h1 h3
    exact buscar_constErr_exhausts e pf tok ht h1 h3
  · intro e pf aFuel tok ht h1 h3
    exact buscar_constErr_noRetry e pf aFuel tok ht h1 h3
  · intro e cs pf tok ht h1 h3
    exact buscar_failTwice_recovers e cs pf tok ht h1 h3

/-- Claim C2, witness: the amended theorem instantiated on a concrete
connect-timeout error. -/
theorem claim_C2_witness :
    buscarCabecalhoNotaSankhya (constErrScript timeoutErr) (4 + 1) 3 9 =
      some ⟨Except.error (erroFinalMsg 3 ("timeout of 60000ms exceeded")),
        [2000, 4000], 3⟩ ∧
    buscarCabecalhoNotaSankhya (failTwiceScript timeoutErr [cab 7]) (0 + 1) 3 0 =
      some ⟨Except.ok [cab 7], [2000, 4000], 3⟩ :=
  ⟨claim_C2_amended.1 timeoutErr 4 9 rfl (by decide) (by decide),
   claim_C2_amended.2.2.1 timeoutErr [cab 7] 0 0 rfl (by decide) (by decide)⟩

/-- Claim C3: a 401/403 page-fetch failure renews the credential in
place, records the 1000ms pacing delay, and retries the same page index
with the accumulated records untouched (first conjunct, for any remote
and any loop state); concretely, with credential expiry at page 2 of a
4-page remote, the retrieval still returns every record of pages 0-3 in
order, with none duplicated and none missing (second conjunct). -/
theorem claim_C3_theorem (p0 p1 p2 p3 : List CabecalhoNota)
    (h0 : p0 ≠ []) (h1 : p1 ≠ []) (h2 : p2 ≠ []) :
    (∀ (script : Nat → Nat → Nat → FetchOutcome) (fuel k page tok : Nat)
        (acc : List CabecalhoNota) (ws : List Nat) (e : ErrObj),
      script k page tok = FetchOutcome.err e →
      (e.status = some 401 ∨ e.status = some 403) →
      pageLoop script (fuel + 1) k page tok acc ws =
        pageLoop script fuel (k + 1) page (tok + 1) acc (ws ++ [1000])) ∧
    buscarCabecalhoNotaSankhya (expiryScript p0 p1 p2 p3) 6 3 0 =
      some ⟨Except.ok (p0 ++ p1 ++ p2 ++ p3), [500, 500, 1000, 500], 1⟩ := by
  have n0 : ¬ (p0 = [] ∨ (true : Bool) = false) := by simp [h0]
  have n1 : ¬ (p1 = [] ∨ (true : Bool) = false) := by simp [h1]
  have n2 : ¬ (p2 = [] ∨ (true : Bool) = false) := by simp [h2]
  refine ⟨fun script fuel k page tok acc ws e hs hauth =>
    pageLoop_auth_step script fuel k page tok acc ws e hs hauth, ?_⟩
  have t0 : pageLoop (expiryScript p0 p1 p2 p3) 6 0 0 0 [] [] =
      some ⟨Except.ok (((([] ++ p0) ++ p1) ++ p2) ++ p3), 4 + 1,
        ((([] ++ [500]) ++ [500]) ++ [1000]) ++ [500]⟩ := by
    rw [show (6 : Nat) = 5 + 1 from rfl,
      pageLoop_ok_step _ 5 0 0 0 [] [] p0 true rfl, if_neg n0]
    rw [show (5 : Nat) = 4 + 1 from rfl,
      pageLoop_ok_step _ 4 (0 + 1) (0 + 1) 0 ([] ++ p0) ([] ++ [500]) p1 true rfl,
      if_neg n1]
    rw [show (4 : Nat) = 3 + 1 from rfl,
      pageLoop_auth_step _ 3 (0 + 1 + 1) (0 + 1 + 1) 0 (([] ++ p0) ++ p1)
        (([] ++ [500]) ++ [500]) authErr401 rfl (Or.inl rfl)]
    rw [show (3 : Nat) = 2 + 1 from rfl,
      pageLoop_ok_step _ 2 (0 + 1 + 1 + 1) (0 + 1 + 1) (0 + 1) (([] ++ p0) ++ p1)
        ((([] ++ [500]) ++ [500]) ++ [1000]) p2 true rfl, if_neg n2]
    rw [show (2 : Nat) = 1 + 1 from rfl,
      pageLoop_ok_step _ 1 (0 + 1 + 1 + 1 + 1) (0 + 1 + 1 + 1) (0 + 1)
        ((([] ++ p0) ++ p1) ++ p2) (((([] ++ [500]) ++ [500]) ++ [1000]) ++ [500])
        p3 false rfl, if_pos (Or.inr rfl)]
  have := buscarAux_pageOk (expiryScript p0 p1 p2 p3) 6 2 0 0 0 []
    (((([] ++ p0) ++ p1) ++ p2) ++ p3) (4 + 1)
    (((([] ++ [500]) ++ [500]) ++ [1000]) ++ [500]) t0
  simp only [buscarCabecalhoNotaSankhya]
  rw [show (3 : Nat) = 2 + 1 from rfl, this]
  simp

/-- Claim C3, witness: the scenario instantiated with one record per
page. -/
theorem claim_C3_witness :
    buscarCabecalhoNotaSankhya (expiryScript [cab 1] [cab 2] [cab 3] [cab 4]) 6 3 0 =
      some ⟨Except.ok ([cab 1] ++ [cab 2] ++ [cab 3] ++ [cab 4]),
        [500, 500, 1000, 500], 1⟩ :=
  (claim_C3_theorem [cab 1] [cab 2] [cab 3] [cab 4] (by decide) (by decide)
    (by decide)).2

/-- Claim C4: on a well-formed page the loop stops exactly when the page
is empty or the `hasMoreResult` indicator is false — the `if` below is
the complete case split, with no dependence on the page count — and an
empty page stops pagination even when the indicator says more pages
exist (take `recs = []`, `hasMore = true`); a response without an entity
payload likewise ends pagination cleanly with the accumulated records. -/
theorem claim_C4_theorem (script : Nat → Nat → Nat → FetchOutcome)
    (fuel k page tok : Nat) (acc : List CabecalhoNota) (ws : List Nat) :
    (∀ (recs : List CabecalhoNota) (hasMore : Bool),
      script k page tok = FetchOutcome.ok recs hasMore →
      pageLoop script (fuel + 1) k page tok acc ws =
        if recs = [] ∨ hasMore = false then
          some ⟨Except.ok (acc ++ recs), k + 1, ws⟩
        else
          pageLoop script fuel (k + 1) (page + 1) tok (acc ++ recs) (ws ++ [500])) ∧
    (script k page tok = FetchOutcome.noEntity →
      pageLoop script (fuel + 1) k page tok acc ws =
        some ⟨Except.ok acc, k + 1, ws⟩) := by
  constructor
  · intro recs hasMore h
    exact pageLoop_ok_step script fuel k page tok acc ws recs hasMore h
  · intro h
    simp only [pageLoop, h]

/-- Claim C4, witness: a page loop that receives a non-empty page whose
indicator still promises more data continues, while an empty page with a
`true` indicator stops. -/
theorem claim_C4_witness :
    pageLoop (fun _ _ _ => FetchOutcome.ok [] true) 1 0 0 0 [cab 9] [] =
      some ⟨Except.ok ([cab 9] ++ []), 0 + 1, []⟩ :=
  ((claim_C4_theorem (fun _ _ _ => FetchOutcome.ok [] true) 0 0 0 0 [cab 9] []).1
    [] true rfl).trans (by rw [if_pos (Or.inl rfl)])

/-- Claim C6, counterexample.  The claim says the number of same-page
retries after 401/403 failures is bounded, so the page loop cannot run
forever when every fetch attempt with a renewed credential keeps
returning 401/403.  In the source the 401/403 branch (lines 144-149) has
no counter at all: against `const401Script` the loop terminates under no
amount of fuel. -/
theorem claim_C6_counterexample : ¬ pageLoopTerminatesOnPersistentAuth := by
  rintro ⟨fuel, h⟩
  rw [pageLoop_const401_none fuel 0 0 0 [] []] at h
  exact Bool.false_ne_true h

/-- Claim C6, amended: a 401/403 failure inside the page loop triggers
forced credential renewal and a retry of the same page index, but this
retry is NOT bounded — when every fetch attempt keeps returning 401/403
the page loop never produces an outcome (first conjunct: it exhausts any
fuel), each cycle renewing the token and retrying the same page (second
conjunct). -/
theorem claim_C6_amended :
    (∀ (fuel k page tok : Nat) (acc : List CabecalhoNota) (ws : List Nat),
      pageLoop const401Script fuel k page tok acc ws = none) ∧
    (∀ (fuel k page tok : Nat) (acc : List CabecalhoNota) (ws : List Nat),
      pageLoop const401Script (fuel + 1) k page tok acc ws =
        pageLoop const401Script fuel (k + 1) page (tok + 1) acc (ws ++ [1000])) :=
  ⟨pageLoop_const401_none,
   fun fuel k page tok acc ws =>
    pageLoop_auth_step const401Script fuel k page tok acc ws authErr401 rfl
      (Or.inl rfl)⟩

/-! ### Lemmas about date conversion -/

theorem validateYMD_range (o1 o2 o3 : Option Int) (d : OracleDate)
    (h : validateYMD o1 o2 o3 = some d) :
    d.year ≠ 0 ∧ 1 ≤ d.month ∧ d.month ≤ 12 ∧ 1 ≤ d.day ∧ d.day ≤ 31 := by
  cases o1 with
  | none => simp [validateYMD] at h
  | some y =>
    cases o2 with
    | none => simp [validateYMD] at h
    | some m =>
      cases o3 with
      | none => simp [validateYMD] at h
      | some dd =>
        simp only [validateYMD] at h
        split at h
        · simp at h
        · rename_i hcond
          injection h with h
          subst h
          push_neg at hcond
          obtain ⟨a1, a2, a3, a4, a5, a6, a7⟩ := hcond
          refine ⟨a1, ?_, ?_, ?_, ?_⟩ <;> dsimp <;> omega

theorem converter_range (s : String) (d : OracleDate)
    (h : converterDataParaOracle (some s) = some d) :
    d.year ≠ 0 ∧ 1 ≤ d.month ∧ d.month ≤ 12 ∧ 1 ≤ d.day ∧ d.day ≤ 31 := by
  simp only [converterDataParaOracle] at h
  split at h
  · exact absurd h (by simp)
  · split at h
    · exact validateYMD_range _ _ _ _ h
    · split at h
      · exact validateYMD_range _ _ _ _ h
      · exact absurd h (by simp)

/-- Claim C5: `"2024-03-15"` and `"15/03/2024"` are stored as the same
date, March 15 2024; a time component after the first space is
discarded; every date the conversion ever stores has month in [1,12] and
day in [1,31] (first conjunct, for every input string); `"2024-13-40"`,
the empty string and `undefined` are stored as unset; and a record whose
date is invalid is still persisted (inserted, counted), with its date
column unset. -/
theorem claim_C5_theorem (s : String) (d : OracleDate)
    (h : converterDataParaOracle (some s) = some d) :
    (1 ≤ d.month ∧ d.month ≤ 12 ∧ 1 ≤ d.day ∧ d.day ≤ 31) ∧
    converterDataParaOracle (some ("2024-03-15")) = some ⟨2024, 3, 15⟩ ∧
    converterDataParaOracle (some ("15/03/2024")) = some ⟨2024, 3, 15⟩ ∧
    converterDataParaOracle (some ("2024-03-15 10:30:00")) = some ⟨2024, 3, 15⟩ ∧
    converterDataParaOracle (some ("15/03/2024 10:30:00")) = some ⟨2024, 3, 15⟩ ∧
    converterDataParaOracle (some ("2024-13-40")) = none ∧
    converterDataParaOracle (some ("")) = none ∧
    converterDataParaOracle none = none ∧
    processRecordE noFault 77 1 [] cabBadDate =
      Except.ok ([insertRowOf 77 1 cabBadDate], true) ∧
    (insertRowOf 77 1 cabBadDate).DTNEG = none := by
  have hr := converter_range s d h
  exact ⟨⟨hr.2.1, hr.2.2.1, hr.2.2.2.1, hr.2.2.2.2⟩, rfl, rfl, rfl, rfl, rfl,
    rfl, rfl, rfl, rfl⟩

/-- Claim C5, witness: the theorem applied to the parse of
`"2024-03-15"`. -/
theorem claim_C5_witness :
    1 ≤ (⟨2024, 3, 15⟩ : OracleDate).month ∧
      (⟨2024, 3, 15⟩ : OracleDate).month ≤ 12 ∧
      1 ≤ (⟨2024, 3, 15⟩ : OracleDate).day ∧
      (⟨2024, 3, 15⟩ : OracleDate).day ≤ 31 :=
  (claim_C5_theorem ("2024-03-15") ⟨2024, 3, 15⟩ rfl).1

/-- Claim C10: every falsy optional bind value is stored as null — the
number 0 for `CODTIPVENDA`, `CODVEND` and `VLRNOTA` in both branches,
and in the insert branch also 0 for `CODTIPOPER` and `CODPARC` and the
empty string for `TIPMOV` — so a record carrying such a zero value is
persisted identically to one where the field is absent. -/
theorem claim_C10_theorem (now t : Nat) (c : CabecalhoNota) (r : MirrorRow) :
    insertRowOf now t { c with CODTIPVENDA := some 0 } =
      insertRowOf now t { c with CODTIPVENDA := none } ∧
    insertRowOf now t { c with CODVEND := some 0 } =
      insertRowOf now t { c with CODVEND := none } ∧
    insertRowOf now t { c with VLRNOTA := some (0 : Int) } =
      insertRowOf now t { c with VLRNOTA := none } ∧
    insertRowOf now t { c with CODTIPOPER := some 0 } =
      insertRowOf now t { c with CODTIPOPER := none } ∧
    insertRowOf now t { c with CODPARC := some 0 } =
      insertRowOf now t { c with CODPARC := none } ∧
    insertRowOf now t { c with TIPMOV := some ("") } =
      insertRowOf now t { c with TIPMOV := none } ∧
    updateRowOf now { c with CODTIPVENDA := some 0 } r =
      updateRowOf now { c with CODTIPVENDA := none } r ∧
    updateRowOf now { c with CODVEND := some 0 } r =
      updateRowOf now { c with CODVEND := none } r ∧
    updateRowOf now { c with VLRNOTA := some (0 : Int) } r =
      updateRowOf now { c with VLRNOTA := none } r ∧
    (insertRowOf now t { c with CODTIPVENDA := some 0 }).CODTIPVENDA = none ∧
    (insertRowOf now t { c with CODTIPOPER := some 0 }).CODTIPOPER = none ∧
    (insertRowOf now t { c with TIPMOV := some ("") }).TIPMOV = none ∧
    (updateRowOf now { c with VLRNOTA := some (0 : Int) } r).VLRNOTA = none :=
  ⟨rfl, rfl, rfl, rfl, rfl, rfl, rfl, rfl, rfl, rfl, rfl, rfl, rfl⟩

/-! ### Lemmas about the upsert counters -/

theorem upsertGo_count (bad : Nat → Bool) (now t : Nat) :
    ∀ (cs : List CabecalhoNota) (db : List MirrorRow),
      (upsertGo bad now t db cs).inseridos +
          (upsertGo bad now t db cs).atualizados =
        (cs.filter fun c => ! bad c.NUNOTA).length := by
  intro cs
  induction cs with
  | nil => intro db; rfl
  | cons c rest ih =>
    intro db
    cases hb : bad c.NUNOTA with
    | true =>
      simp only [upsertGo, processRecordE, if_pos hb, List.filter_cons, hb]
      simpa using ih db
    | false =>
      cases he : db.any (keyMatch t c.NUNOTA) with
      | true =>
        simp only [upsertGo, processRecordE, hb, he, Bool.false_eq_true,
          if_false, if_true, List.filter_cons]
        have := ih (db.map fun r =>
          if keyMatch t c.NUNOTA r then updateRowOf now c r else r)
        simp only [Bool.not_false, if_true, List.length_cons]
        omega
      | false =>
        simp only [upsertGo, processRecordE, hb, he, Bool.false_eq_true,
          if_false, List.filter_cons]
        have := ih (db ++ [insertRowOf now t c])
        simp only [Bool.not_false, if_true, List.length_cons]
        omega

theorem length_filter_not_add {α : Type} (p : α → Bool) (l : List α) :
    (l.filter fun a => ! p a).length + (l.filter p).length = l.length := by
  induction l with
  | nil => rfl
  | cons a l ih => cases h : p a <;> simp [List.filter_cons, h] <;> omega

/-- Claim C8: per-record fault isolation in `upsertCabecalhoNota`.  For
any batch of 100 records of which exactly one fails (its
`connection.execute` throws), the per-record catch swallows the failure
and the batch still produces 99 counted upserts; no exception surfaces
past the batch (the upsert is a total function of the fault oracle, and
for the failing record the per-record step really is an `Except.error`
that the loop absorbs). -/
theorem claim_C8_theorem (bad : Nat → Bool) (now t : Nat)
    (db : List MirrorRow) (cs : List CabecalhoNota)
    (hlen : cs.length = 100)
    (hone : (cs.filter fun c => bad c.NUNOTA).length = 1) :
    (upsertCabecalhoNota bad now t db cs).inseridos +
        (upsertCabecalhoNota bad now t db cs).atualizados = 99 ∧
    ∀ c ∈ cs, bad c.NUNOTA = true →
      processRecordE bad now t db c =
        Except.error (("Erro ao processar cabeçalho NUNOTA ") ++
          toString c.NUNOTA) := by
  constructor
  · have h1 := upsertGo_count bad now t cs db
    have h2 := length_filter_not_add (fun c => bad c.NUNOTA) cs
    simp only [upsertCabecalhoNota]
    omega
  · intro c _ hb
    simp only [processRecordE, if_pos hb]

/-- Claim C8, witness: 100 records with identifiers 0..99 of which
exactly the one with identifier 5 faults. -/
theorem claim_C8_witness :
    (upsertCabecalhoNota (fun id => decide (id = 5)) 0 1 []
        ((List.range 100).map cab)).inseridos +
      (upsertCabecalhoNota (fun id => decide (id = 5)) 0 1 []
        ((List.range 100).map cab)).atualizados = 99 :=
  (claim_C8_theorem (fun id => decide (id = 5)) 0 1 [] ((List.range 100).map cab)
    (by decide) (by decide)).1

/-! ### Lemmas about the mirror-table reconciliation -/

theorem keyMatch_updateRowOf (now t' id : Nat) (c : CabecalhoNota)
    (r : MirrorRow) : keyMatch t' id (updateRowOf now c r) = keyMatch t' id r :=
  rfl

theorem keyMatch_condUpdate (now t t' id : Nat) (c : CabecalhoNota)
    (r : MirrorRow) :
    keyMatch t' id (if keyMatch t c.NUNOTA r then updateRowOf now c r else r) =
      keyMatch t' id r := by
  split <;> rfl

theorem any_map_eq (db : List MirrorRow) (f : MirrorRow → MirrorRow)
    (p : MirrorRow → Bool) (h : ∀ r, p (f r) = p r) :
    (db.map f).any p = db.any p := by
  induction db with
  | nil => rfl
  | cons r rest ih => simp [h, ih]

theorem any_map_mono (db : List MirrorRow) (f : MirrorRow → MirrorRow)
    (p : MirrorRow → Bool) (h : ∀ r, p r = true → p (f r) = true) :
    db.any p = true → (db.map f).any p = true := by
  induction db with
  | nil => simp
  | cons r rest ih =>
    simp only [List.any_cons, List.map_cons, Bool.or_eq_true]
    rintro (hr | hrest)
    · exact Or.inl (h r hr)
    · exact Or.inr (ih hrest)

theorem upsertGo_db_forall (bad : Nat → Bool) (now t : Nat)
    (P : MirrorRow → Prop) :
    ∀ (cs : List CabecalhoNota) (db : List MirrorRow),
      (∀ c ∈ cs, ∀ r, P r → keyMatch t c.NUNOTA r = true →
        P (updateRowOf now c r)) →
      (∀ c ∈ cs, P (insertRowOf now t c)) →
      (∀ r ∈ db, P r) →
      ∀ r ∈ (upsertGo bad now t db cs).db, P r := by
  intro cs
  induction cs with
  | nil => intro db _ _ hdb; exact hdb
  | cons c rest ih =>
    intro db hup hins hdb
    have hup' : ∀ c' ∈ rest, ∀ r, P r → keyMatch t c'.NUNOTA r = true →
        P (updateRowOf now c' r) :=
      fun c' hc' => hup c' (List.mem_cons_of_mem c hc')
    have hins' : ∀ c' ∈ rest, P (insertRowOf now t c') :=
      fun c' hc' => hins c' (List.mem_cons_of_mem c hc')
    cases hb : bad c.NUNOTA with
    | true =>
      simp only [upsertGo, processRecordE, if_pos hb]
      exact ih db hup' hins' hdb
    | false =>
      cases he : db.any (keyMatch t c.NUNOTA) with
      | true =>
        simp only [upsertGo, processRecordE, hb, he, Bool.false_eq_true,
          if_false, if_true]
        refine ih _ hup' hins' ?_
        intro r' hr'
        rw [List.mem_map] at hr'
        obtain ⟨r0, hr0, rfl⟩ := hr'
        by_cases hk : keyMatch t c.NUNOTA r0 = true
        · rw [if_pos hk]
          exact hup c (List.mem_cons_self c rest) r0 (hdb r0 hr0) hk
        · rw [if_neg hk]
          exact hdb r0 hr0
      | false =>
        simp only [upsertGo, processRecordE, hb, he, Bool.false_eq_true,
          if_false]
        refine ih _ hup' hins' ?_
        intro r' hr'
        rcases List.mem_append.mp hr' with hr' | hr'
        · exact hdb r' hr'
        · rw [List.mem_singleton] at hr'
          subst hr'
          exact hins c (List.mem_cons_self c rest)

theorem activeKey_updateRowOf (now t id : Nat) (c : CabecalhoNota)
    (r : MirrorRow) :
    activeKey t id (updateRowOf now c r) = keyMatch t id r := by
  simp [activeKey, keyMatch, updateRowOf]

theorem upsertGo_any_key (bad : Nat → Bool) (now t : Nat) :
    ∀ (cs : List CabecalhoNota) (db : List MirrorRow) (t' id : Nat),
      db.any (keyMatch t' id) = true →
      ((upsertGo bad now t db cs).db.any (keyMatch t' id)) = true := by
  intro cs
  induction cs with
  | nil => intro db t' id h; exact h
  | cons c rest ih =>
    intro db t' id h
    cases hb : bad c.NUNOTA with
    | true =>
      simp only [upsertGo, processRecordE, if_pos hb]
      exact ih db t' id h
    | false =>
      cases he : db.any (keyMatch t c.NUNOTA) with
      | true =>
        simp only [upsertGo, processRecordE, hb, he, Bool.false_eq_true,
          if_false, if_true]
        refine ih _ t' id ?_
        rw [any_map_eq _ _ _ (keyMatch_condUpdate now t t' id c)]
        exact h
      | false =>
        simp only [upsertGo, processRecordE, hb, he, Bool.false_eq_true,
          if_false]
        refine ih _ t' id ?_
        simp only [List.any_append, Bool.or_eq_true]
        exact Or.inl h

theorem upsertGo_any_active_mono (bad : Nat → Bool) (now t : Nat) :
    ∀ (cs : List CabecalhoNota) (db : List MirrorRow) (id : Nat),
      db.any (activeKey t id) = true →
      ((upsertGo bad now t db cs).db.any (activeKey t id)) = true := by
  intro cs
  induction cs with
  | nil => intro db id h; exact h
  | cons c rest ih =>
    intro db id h
    cases hb : bad c.NUNOTA with
    | true =>
      simp only [upsertGo, processRecordE, if_pos hb]
      exact ih db id h
    | false =>
      cases he : db.any (keyMatch t c.NUNOTA) with
      | true =>
        simp only [upsertGo, processRecordE, hb, he, Bool.false_eq_true,
          if_false, if_true]
        refine ih _ id (any_map_mono _ _ _ ?_ h)
        intro r hr
        by_cases hk : keyMatch t c.NUNOTA r = true
        · rw [if_pos hk, activeKey_updateRowOf]
          simp only [activeKey, decide_eq_true_eq] at hr
          simp [keyMatch, hr.1, hr.2.1]
        · rw [if_neg hk]
          exact hr
      | false =>
        simp only [upsertGo, processRecordE, hb, he, Bool.false_eq_true,
          if_false]
        refine ih _ id ?_
        simp only [List.any_append, Bool.or_eq_true]
        exact Or.inl h

theorem upsertGo_processed_active (bad : Nat → Bool) (now t : Nat) :
    ∀ (cs : List CabecalhoNota) (db : List MirrorRow),
      ∀ c ∈ cs, bad c.NUNOTA = false →
        ((upsertGo bad now t db cs).db.any (activeKey t c.NUNOTA)) = true := by
  intro cs
  induction cs with
  | nil => intro db c hc; exact absurd hc (List.not_mem_nil c)
  | cons c' rest ih =>
    intro db c hc hbc
    rcases List.mem_cons.mp hc with rfl | hc
    · cases he : db.any (keyMatch t c.NUNOTA) with
      | true =>
        simp only [upsertGo, processRecordE, hbc, he, Bool.false_eq_true,
          if_false, if_true]
        refine upsertGo_any_active_mono bad now t rest _ c.NUNOTA ?_
        rw [List.any_eq_true] at he ⊢
        obtain ⟨r0, hr0, hk⟩ := he
        refine ⟨if keyMatch t c.NUNOTA r0 then updateRowOf now c r0 else r0,
          List.mem_map_of_mem _ hr0, ?_⟩
        rw [if_pos hk, activeKey_updateRowOf]
        exact hk
      | false =>
        simp only [upsertGo, processRecordE, hbc, he, Bool.false_eq_true,
          if_false]
        refine upsertGo_any_active_mono bad now t rest _ c.NUNOTA ?_
        simp only [List.any_append, Bool.or_eq_true]
        right
        simp [activeKey, insertRowOf]
    · cases hb : bad c'.NUNOTA with
      | true =>
        simp only [upsertGo, processRecordE, if_pos hb]
        exact ih db c hc hbc
      | false =>
        cases he : db.any (keyMatch t c'.NUNOTA) with
        | true =>
          simp only [upsertGo, processRecordE, hb, he, Bool.false_eq_true,
            if_false, if_true]
          exact ih _ c hc hbc
        | false =>
          simp only [upsertGo, processRecordE, hb, he, Bool.false_eq_true,
            if_false]
          exact ih _ c hc hbc

theorem marcar_tenant_inactive (now t : Nat) (db : List MirrorRow)
    (hwf : ∀ r ∈ db, r.SANKHYA_ATUAL = 'S' ∨ r.SANKHYA_ATUAL = 'N') :
    ∀ r' ∈ (marcarTodosComoNaoAtuais now t db).1,
      r'.ID_SISTEMA = t → r'.SANKHYA_ATUAL = 'N' := by
  intro r' hr'
  simp only [marcarTodosComoNaoAtuais, List.mem_map] at hr'
  obtain ⟨r, hr, rfl⟩ := hr'
  by_cases hc : r.ID_SISTEMA = t ∧ r.SANKHYA_ATUAL = 'S'
  · rw [if_pos hc]
    intro _
    rfl
  · rw [if_neg hc]
    intro hid
    rcases hwf r hr with hs | hn
    · exact absurd ⟨hid, hs⟩ hc
    · exact hn

theorem marcar_flags_wf (now t : Nat) (db : List MirrorRow)
    (hwf : ∀ r ∈ db, r.SANKHYA_ATUAL = 'S' ∨ r.SANKHYA_ATUAL = 'N') :
    ∀ r' ∈ (marcarTodosComoNaoAtuais now t db).1,
      r'.SANKHYA_ATUAL = 'S' ∨ r'.SANKHYA_ATUAL = 'N' := by
  intro r' hr'
  simp only [marcarTodosComoNaoAtuais, List.mem_map] at hr'
  obtain ⟨r, hr, rfl⟩ := hr'
  split
  · exact Or.inr rfl
  · exact hwf r hr

theorem marcar_any_key (now t : Nat) (db : List MirrorRow) (t' id : Nat) :
    ((marcarTodosComoNaoAtuais now t db).1.any (keyMatch t' id)) =
      db.any (keyMatch t' id) := by
  refine any_map_eq db _ _ ?_
  intro r
  split <;> rfl

theorem map_keyOf_marcar (now t : Nat) (db : List MirrorRow) :
    ((marcarTodosComoNaoAtuais now t db).1).map keyOf = db.map keyOf := by
  simp only [marcarTodosComoNaoAtuais, List.map_map]
  refine List.map_congr_left ?_
  intro r _
  simp only [Function.comp_apply]
  split <;> rfl

theorem upsertGo_keys_nodup (bad : Nat → Bool) (now t : Nat) :
    ∀ (cs : List CabecalhoNota) (db : List MirrorRow),
      ((db.map keyOf).Nodup) →
      (((upsertGo bad now t db cs).db.map keyOf).Nodup) := by
  intro cs
  induction cs with
  | nil => intro db h; exact h
  | cons c rest ih =>
    intro db h
    cases hb : bad c.NUNOTA with
    | true =>
      simp only [upsertGo, processRecordE, if_pos hb]
      exact ih db h
    | false =>
      cases he : db.any (keyMatch t c.NUNOTA) with
      | true =>
        simp only [upsertGo, processRecordE, hb, he, Bool.false_eq_true,
          if_false, if_true]
        refine ih _ ?_
        have heq : (db.map fun r =>
            if keyMatch t c.NUNOTA r then updateRowOf now c r else r).map keyOf =
            db.map keyOf := by
          simp only [List.map_map]
          refine List.map_congr_left ?_
          intro r _
          simp only [Function.comp_apply]
          split <;> rfl
        rw [heq]
        exact h
      | false =>
        simp only [upsertGo, processRecordE, hb, he, Bool.false_eq_true,
          if_false]
        refine ih _ ?_
        rw [List.map_append, List.nodup_append]
        refine ⟨h, List.nodup_singleton _, ?_⟩
        intro a ha hmem
        simp only [List.map_cons, List.map_nil, List.mem_singleton] at hmem
        subst hmem
        rw [List.mem_map] at ha
        obtain ⟨r, hr, hkey⟩ := ha
        simp only [keyOf, insertRowOf, Prod.mk.injEq] at hkey
        have hany : db.any (keyMatch t c.NUNOTA) = true := by
          rw [List.any_eq_true]
          refine ⟨r, hr, ?_⟩
          simp only [keyMatch, decide_eq_true_eq]
          exact ⟨hkey.1, hkey.2⟩
        rw [hany] at he
        exact absurd he (by decide)

theorem mem_activeIds (db : List MirrorRow) (t id : Nat) :
    id ∈ activeIds db t ↔ db.any (activeKey t id) = true := by
  simp only [activeIds, List.mem_map, List.mem_filter, List.any_eq_true,
    activeKey, decide_eq_true_eq]
  constructor
  · rintro ⟨r, ⟨hr, hp⟩, rfl⟩
    exact ⟨r, hr, hp.1, rfl, hp.2⟩
  · rintro ⟨r, hr, h1, h2, h3⟩
    exact ⟨r, ⟨hr, h1, h3⟩, h2⟩

theorem activeIds_nodup (db : List MirrorRow) (t : Nat)
    (hk : (db.map keyOf).Nodup) : (activeIds db t).Nodup := by
  have hsub : ((db.filter fun r =>
      decide (r.ID_SISTEMA = t ∧ r.SANKHYA_ATUAL = 'S')).map keyOf).Nodup :=
    ((List.filter_sublist db).map keyOf).nodup hk
  have hid : ∀ r ∈ db.filter fun r =>
      decide (r.ID_SISTEMA = t ∧ r.SANKHYA_ATUAL = 'S'), r.ID_SISTEMA = t := by
    intro r hr
    have hp := (List.mem_filter.mp hr).2
    exact (of_decide_eq_true hp).1
  have heq : (db.filter fun r =>
        decide (r.ID_SISTEMA = t ∧ r.SANKHYA_ATUAL = 'S')).map keyOf =
      ((db.filter fun r =>
        decide (r.ID_SISTEMA = t ∧ r.SANKHYA_ATUAL = 'S')).map
          fun r => r.NUNOTA).map (fun id => (t, id)) := by
    rw [List.map_map]
    refine List.map_congr_left ?_
    intro r hr
    simp only [Function.comp_apply, keyOf]
    rw [hid r hr]
  rw [heq] at hsub
  exact List.Nodup.of_map _ hsub

theorem length_eq_of_nodup_ext (l1 l2 : List Nat) (h1 : l1.Nodup)
    (h2 : l2.Nodup) (h : ∀ a, a ∈ l1 ↔ a ∈ l2) : l1.length = l2.length :=
  ((List.perm_ext_iff_of_nodup h1 h2).mpr h).length_eq

theorem any_activeKey_keyMatch (db : List MirrorRow) (t id : Nat)
    (h : db.any (activeKey t id) = true) : db.any (keyMatch t id) = true := by
  rw [List.any_eq_true] at h ⊢
  obtain ⟨r, hr, ha⟩ := h
  simp only [activeKey, decide_eq_true_eq] at ha
  exact ⟨r, hr, by simp [keyMatch, ha.1, ha.2.1]⟩

theorem upsertGo_all_exist (bad : Nat → Bool) (now t : Nat) :
    ∀ (cs : List CabecalhoNota) (db : List MirrorRow),
      (∀ c ∈ cs, db.any (keyMatch t c.NUNOTA) = true) →
      (∀ c ∈ cs, bad c.NUNOTA = false) →
      (upsertGo bad now t db cs).inseridos = 0 ∧
      (upsertGo bad now t db cs).atualizados = cs.length := by
  intro cs
  induction cs with
  | nil => intro db _ _; exact ⟨rfl, rfl⟩
  | cons c rest ih =>
    intro db hex hnb
    have hb : bad c.NUNOTA = false := hnb c (List.mem_cons_self c rest)
    have he : db.any (keyMatch t c.NUNOTA) = true :=
      hex c (List.mem_cons_self c rest)
    simp only [upsertGo, processRecordE, hb, he, Bool.false_eq_true, if_false,
      if_true]
    have hrest := ih (db.map fun r =>
        if keyMatch t c.NUNOTA r then updateRowOf now c r else r)
      (fun c' hc' => by
        rw [any_map_eq _ _ _ (keyMatch_condUpdate now t t c'.NUNOTA c)]
        exact hex c' (List.mem_cons_of_mem c hc'))
      (fun c' hc' => hnb c' (List.mem_cons_of_mem c hc'))
    simp only [List.length_cons]
    exact ⟨hrest.1, by rw [hrest.2]⟩

theorem upsertGo_flags_wf (bad : Nat → Bool) (now t : Nat)
    (cs : List CabecalhoNota) (db : List MirrorRow)
    (hwf : ∀ r ∈ db, r.SANKHYA_ATUAL = 'S' ∨ r.SANKHYA_ATUAL = 'N') :
    ∀ r ∈ (upsertGo bad now t db cs).db,
      r.SANKHYA_ATUAL = 'S' ∨ r.SANKHYA_ATUAL = 'N' := by
  refine upsertGo_db_forall bad now t _ cs db ?_ ?_ hwf
  · intro c _ r _ _
    exact Or.inl rfl
  · intro c _
    exact Or.inl rfl

/-- The net effect of one fault-free reconciliation (stale-marking then
upsert): a tenant row ends active exactly when its identifier is in the
snapshot, and every tenant row whose identifier is not in the snapshot
ends inactive. -/
theorem reconcile_active_iff (now t : Nat) (db : List MirrorRow)
    (cs : List CabecalhoNota)
    (hwf : ∀ r ∈ db, r.SANKHYA_ATUAL = 'S' ∨ r.SANKHYA_ATUAL = 'N') :
    (∀ id, id ∈ activeIds
        (upsertGo noFault now t (marcarTodosComoNaoAtuais now t db).1 cs).db t ↔
      id ∈ cs.map fun c => c.NUNOTA) ∧
    (∀ r ∈ (upsertGo noFault now t (marcarTodosComoNaoAtuais now t db).1 cs).db,
      r.ID_SISTEMA = t → ¬ r.NUNOTA ∈ (cs.map fun c => c.NUNOTA) →
        r.SANKHYA_ATUAL = 'N') := by
  have hinactive := marcar_tenant_inactive now t db hwf
  constructor
  · intro id
    constructor
    · intro hid
      rw [mem_activeIds, List.any_eq_true] at hid
      obtain ⟨r, hr, ha⟩ := hid
      simp only [activeKey, decide_eq_true_eq] at ha
      have hq : ∀ r ∈ (upsertGo noFault now t
          (marcarTodosComoNaoAtuais now t db).1 cs).db,
          r.ID_SISTEMA = t → r.SANKHYA_ATUAL = 'S' →
            r.NUNOTA ∈ cs.map fun c => c.NUNOTA := by
        refine upsertGo_db_forall noFault now t _ cs _ ?_ ?_ ?_
        · intro c hc r' _ hk _ _
          simp only [keyMatch, decide_eq_true_eq] at hk
          have : (updateRowOf now c r').NUNOTA = c.NUNOTA := hk.2
          rw [this]
          exact List.mem_map_of_mem _ hc
        · intro c hc _ _
          exact List.mem_map_of_mem _ hc
        · intro r' hr' hid' hs'
          rw [hinactive r' hr' hid'] at hs'
          exact absurd hs' (by decide)
      rw [← ha.2.1]
      exact hq r hr ha.1 ha.2.2
    · intro hid
      rw [List.mem_map] at hid
      obtain ⟨c, hc, rfl⟩ := hid
      rw [mem_activeIds]
      exact upsertGo_processed_active noFault now t cs _ c hc rfl
  · refine upsertGo_db_forall noFault now t _ cs _ ?_ ?_ ?_
    · intro c hc r' _ hk hid' hnot
      simp only [keyMatch, decide_eq_true_eq] at hk
      have : (updateRowOf now c r').NUNOTA = c.NUNOTA := hk.2
      rw [this] at hnot
      exact absurd (List.mem_map_of_mem _ hc) hnot
    · intro c hc hid' hnot
      have : (insertRowOf now t c).NUNOTA = c.NUNOTA := rfl
      rw [this] at hnot
      exact absurd (List.mem_map_of_mem _ hc) hnot
    · intro r' hr' hid' _
      exact hinactive r' hr' hid'

/-- Evaluating one orchestration run against `oneShotEnv`: every
collaborator succeeds, so the run returns the success result with the
reconciliation's counters and table. -/
theorem sincronizar_oneShot (now t : Nat) (nome : String)
    (db : List MirrorRow) (cs : List CabecalhoNota) (bad : Nat → Bool) :
    sincronizarCabecalhoNotaPorEmpresa (oneShotEnv now cs bad) t nome db =
      some ({ success := true
              idSistema := t
              empresa := nome
              totalRegistros := cs.length
              registrosInseridos := (upsertGo bad now t
                (marcarTodosComoNaoAtuais now t db).1 cs).inseridos
              registrosAtualizados := (upsertGo bad now t
                (marcarTodosComoNaoAtuais now t db).1 cs).atualizados
              registrosDeletados := (marcarTodosComoNaoAtuais now t db).2
              erro := none },
        (upsertGo bad now t (marcarTodosComoNaoAtuais now t db).1 cs).db) := by
  have hp : pageLoop (oneShotScript cs) 1 0 0 0 [] [] =
      some ⟨Except.ok cs, 0 + 1, []⟩ := by
    rw [show (1 : Nat) = 0 + 1 from rfl,
      pageLoop_ok_step _ 0 0 0 0 [] [] cs false rfl, if_pos (Or.inr rfl)]
    simp
  have hb : buscarCabecalhoNotaSankhya (oneShotScript cs) 1 MAX_RETRIES 0 =
      some ⟨Except.ok cs, [] ++ [], 0 + 1⟩ :=
    buscarAux_pageOk (oneShotScript cs) 1 2 0 0 0 [] cs (0 + 1) [] hp
  simp only [sincronizarCabecalhoNotaPorEmpresa, sincronizarBody, oneShotEnv,
    hb, upsertCabecalhoNota]

/-! ### Claim theorems: reconciliation and orchestration -/

/-- Claim C1, counterexample.  The invariant is stated for every
successful run, but a run in which one record's database work throws
(and is skipped per the per-record catch, lines 372-374) still returns
`success: true`: syncing the one-record snapshot `[cab 7]` while record
7 faults yields a successful outcome with NO active row, although 7 is
in the snapshot just processed. -/
theorem claim_C1_counterexample :
    (sincronizarCabecalhoNotaPorEmpresa
        (oneShotEnv 0 [cab 7] fun id => decide (id = 7)) 1 ("Empresa A") []).map
      (fun p => (p.1.success, activeIds p.2 1)) = some (true, []) ∧
    ([cab 7].map fun c => c.NUNOTA) = [7] ∧
    ¬ (([] : List Nat) = [7]) :=
  ⟨rfl, rfl, by decide⟩

/-- Claim C1, amended: in a successful run of the tenant sync in which
no per-record failure occurred (fault oracle `noFault`), the set of
mirror rows flagged `'S'` for the tenant is exactly the set of rows
whose NUNOTA appears in the snapshot just processed, and every tenant
row whose identifier is not in the snapshot — in particular every row
previously active — is flagged `'N'`.  The table is only assumed to
carry well-formed `'S'`/`'N'` flags. -/
theorem claim_C1_amended (now t : Nat) (nome : String) (db : List MirrorRow)
    (cs : List CabecalhoNota)
    (hwf : ∀ r ∈ db, r.SANKHYA_ATUAL = 'S' ∨ r.SANKHYA_ATUAL = 'N') :
    ∃ res db2,
      sincronizarCabecalhoNotaPorEmpresa (oneShotEnv now cs noFault) t nome db =
        some (res, db2) ∧
      res.success = true ∧
      (∀ id, id ∈ activeIds db2 t ↔ id ∈ cs.map fun c => c.NUNOTA) ∧
      (∀ r ∈ db2, r.ID_SISTEMA = t → ¬ r.NUNOTA ∈ (cs.map fun c => c.NUNOTA) →
        r.SANKHYA_ATUAL = 'N') :=
  ⟨_, _, sincronizar_oneShot now t nome db cs noFault, rfl,
    (reconcile_active_iff now t db cs hwf).1,
    (reconcile_active_iff now t db cs hwf).2⟩

/-- Claim C1, witness: the amended theorem on a two-record snapshot over
an initially empty table. -/
theorem claim_C1_witness :
    ∃ res db2,
      sincronizarCabecalhoNotaPorEmpresa (oneShotEnv 3 [cab 7, cab 8] noFault)
          1 ("ACME") [] = some (res, db2) ∧
      res.success = true ∧
      (∀ id, id ∈ activeIds db2 1 ↔ id ∈ [cab 7, cab 8].map fun c => c.NUNOTA) ∧
      (∀ r ∈ db2, r.ID_SISTEMA = 1 →
        ¬ r.NUNOTA ∈ ([cab 7, cab 8].map fun c => c.NUNOTA) →
        r.SANKHYA_ATUAL = 'N') :=
  claim_C1_amended 3 1 ("ACME") [] [cab 7, cab 8] (by simp)

/-- Claim C9, counterexample.  With an unchanged one-record snapshot
(N = 1) whose record faults in both runs, both runs report success and
the second outcome has zero inserted rows but also ZERO updated rows
(the claim requires N = 1), and the active-row count is 0, not N. -/
theorem claim_C9_counterexample :
    ((sincronizarCabecalhoNotaPorEmpresa
        (oneShotEnv 0 [cab 7] fun id => decide (id = 7)) 1 ("Empresa A") []).bind
      fun p => (sincronizarCabecalhoNotaPorEmpresa
        (oneShotEnv 1 [cab 7] fun id => decide (id = 7)) 1 ("Empresa A")
        p.2).map
        fun q => (p.1.success, q.1.success, q.1.registrosInseridos,
          q.1.registrosAtualizados, (activeIds q.2 1).length)) =
      some (true, true, 0, 0, 0) ∧
    [cab 7].length = 1 ∧ ¬ ((0 : Nat) = 1) :=
  ⟨rfl, rfl, by decide⟩

/-- Claim C9, amended: running the tenant sync twice in a row against an
unchanged snapshot of N records, with no per-record failure in either
run, yields a second outcome with zero inserted rows and N updated rows,
and the tenant's active-row count equals N after both runs.  Ambient
assumptions from the data model: the snapshot's identifiers are distinct
(NUNOTA is unique within a tenant) and the mirror table's
(tenant, record) keys are unique with well-formed `'S'`/`'N'` flags. -/
theorem claim_C9_amended (now1 now2 t : Nat) (nome : String)
    (db : List MirrorRow) (cs : List CabecalhoNota)
    (hnodup : (cs.map fun c => c.NUNOTA).Nodup)
    (hkeys : (db.map keyOf).Nodup)
    (hwf : ∀ r ∈ db, r.SANKHYA_ATUAL = 'S' ∨ r.SANKHYA_ATUAL = 'N') :
    ∃ r1 db1 r2 db2,
      sincronizarCabecalhoNotaPorEmpresa (oneShotEnv now1 cs noFault) t nome db =
        some (r1, db1) ∧
      sincronizarCabecalhoNotaPorEmpresa (oneShotEnv now2 cs noFault) t nome db1 =
        some (r2, db2) ∧
      r1.success = true ∧ r2.success = true ∧
      r2.registrosInseridos = 0 ∧ r2.registrosAtualizados = cs.length ∧
      (activeIds db1 t).length = cs.length ∧
      (activeIds db2 t).length = cs.length := by
  refine ⟨_, _, _, _, sincronizar_oneShot now1 t nome db cs noFault,
    sincronizar_oneShot now2 t nome _ cs noFault, rfl, rfl, ?_, ?_, ?_, ?_⟩
  all_goals
    have hdb1keys : (((upsertGo noFault now1 t
        (marcarTodosComoNaoAtuais now1 t db).1 cs).db.map keyOf).Nodup) := by
      refine upsertGo_keys_nodup noFault now1 t cs _ ?_
      rw [map_keyOf_marcar]
      exact hkeys
    have hdb1wf : ∀ r ∈ (upsertGo noFault now1 t
        (marcarTodosComoNaoAtuais now1 t db).1 cs).db,
        r.SANKHYA_ATUAL = 'S' ∨ r.SANKHYA_ATUAL = 'N' :=
      upsertGo_flags_wf noFault now1 t cs _ (marcar_flags_wf now1 t db hwf)
    have hact1 := (reconcile_active_iff now1 t db cs hwf).1
    have hex2 : ∀ c ∈ cs, ((marcarTodosComoNaoAtuais now2 t
        (upsertGo noFault now1 t (marcarTodosComoNaoAtuais now1 t db).1 cs).db).1.any
          (keyMatch t c.NUNOTA)) = true := by
      intro c hc
      rw [marcar_any_key]
      refine any_activeKey_keyMatch _ t c.NUNOTA ?_
      rw [← mem_activeIds]
      exact (hact1 c.NUNOTA).mpr (List.mem_map_of_mem _ hc)
  · exact (upsertGo_all_exist noFault now2 t cs _ hex2 fun _ _ => rfl).1
  · exact (upsertGo_all_exist noFault now2 t cs _ hex2 fun _ _ => rfl).2
  · rw [← List.length_map cs fun c => c.NUNOTA]
    exact length_eq_of_nodup_ext _ _ (activeIds_nodup _ t hdb1keys) hnodup hact1
  · have hact2 := (reconcile_active_iff now2 t _ cs hdb1wf).1
    have hdb2keys : (((upsertGo noFault now2 t
        (marcarTodosComoNaoAtuais now2 t (upsertGo noFault now1 t
          (marcarTodosComoNaoAtuais now1 t db).1 cs).db).1 cs).db.map
        keyOf).Nodup) := by
      refine upsertGo_keys_nodup noFault now2 t cs _ ?_
      rw [map_keyOf_marcar]
      exact hdb1keys
    rw [← List.length_map cs fun c => c.NUNOTA]
    exact length_eq_of_nodup_ext _ _ (activeIds_nodup _ t hdb2keys) hnodup hact2

/-- Claim C9, witness: the amended theorem on a two-record snapshot over
an initially empty table. -/
theorem claim_C9_witness :
    ∃ r1 db1 r2 db2,
      sincronizarCabecalhoNotaPorEmpresa (oneShotEnv 5 [cab 7, cab 8] noFault)
          1 ("ACME") [] = some (r1, db1) ∧
      sincronizarCabecalhoNotaPorEmpresa (oneShotEnv 6 [cab 7, cab 8] noFault)
          1 ("ACME") db1 = some (r2, db2) ∧
      r1.success = true ∧ r2.success = true ∧
      r2.registrosInseridos = 0 ∧
      r2.registrosAtualizados = [cab 7, cab 8].length ∧
      (activeIds db1 1).length = [cab 7, cab 8].length ∧
      (activeIds db2 1).length = [cab 7, cab 8].length :=
  claim_C9_amended 5 6 1 ("ACME") [] [cab 7, cab 8] (by decide) (by decide)
    (by simp)

/-! ### Lemmas about the orchestrator boundary -/

theorem sincronizarBody_ok_shape (env : SyncEnv) (t : Nat) (nome : String)
    (db : List MirrorRow) (r : SyncResult) (db' : List MirrorRow)
    (h : sincronizarBody env t nome db = some (Except.ok (r, db'))) :
    r.success = true ∧ r.erro = none := by
  unfold sincronizarBody at h
  cases htok : env.tokenRes with
  | error m => simp only [htok] at h; simp at h
  | ok tok =>
    simp only [htok] at h
    cases hb : buscarCabecalhoNotaSankhya env.fetchScript env.pageFuel
        MAX_RETRIES tok with
    | none => simp only [hb] at h; simp at h
    | some bd =>
      simp only [hb] at h
      cases hbd : bd.result with
      | error m => simp only [hbd] at h; simp at h
      | ok cabecalhos =>
        simp only [hbd] at h
        cases hconn : env.connRes with
        | error m => simp only [hconn] at h; simp at h
        | ok u =>
          simp only [hconn] at h
          cases hmf : env.marcarFail with
          | some m => simp only [hmf] at h; simp at h
          | none =>
            simp only [hmf] at h
            cases hcf : env.commitFail with
            | some m => simp only [hcf] at h; simp at h
            | none =>
              simp only [hcf, Option.some.injEq, Except.ok.injEq,
                Prod.mk.injEq] at h
              rw [← h.1]
              exact ⟨rfl, rfl⟩

theorem runTenants_length (envOf : Nat → SyncEnv) :
    ∀ (tenants : List (Nat × String)) (db : List MirrorRow)
      (rs : List SyncResult) (db2 : List MirrorRow),
      runTenants envOf db tenants = some (rs, db2) →
      rs.length = tenants.length := by
  intro tenants
  induction tenants with
  | nil =>
    intro db rs db2 h
    simp only [runTenants, Option.some.injEq, Prod.mk.injEq] at h
    rw [← h.1]
    rfl
  | cons tn rest ih =>
    intro db rs db2 h
    obtain ⟨t, nome⟩ := tn
    simp only [runTenants] at h
    cases hs : sincronizarCabecalhoNotaPorEmpresa (envOf t) t nome db with
    | none => simp [hs] at h
    | some p =>
      obtain ⟨q, dbq⟩ := p
      simp only [hs] at h
      cases hr : runTenants envOf dbq rest with
      | none => simp [hr] at h
      | some pr =>
        obtain ⟨rs', db''⟩ := pr
        simp only [hr, Option.some.injEq, Prod.mk.injEq] at h
        rw [← h.1, List.length_cons, List.length_cons,
          ih dbq rs' db'' hr]

/-- Claim C7, counterexample.  `sincronizarCabecalhoNotaPorEmpresa`
never surfaces a fault, but `sincronizarTodasEmpresas` does: when the
tenant-enumeration phase (connection plus the `AD_CONTRATOS` query)
throws, the catch block at lines 559-561 re-throws the error instead of
returning a list, so the caller receives a bare fault. -/
theorem claim_C7_counterexample :
    sincronizarTodasEmpresas (Except.error ("ORA-12541: TNS:no listener"))
      (fun _ => oneShotEnv 0 [] noFault) [] =
      some (Except.error ("ORA-12541: TNS:no listener")) := rfl

/-- Claim C7, amended.  (1) `sincronizarCabecalhoNotaPorEmpresa` always
returns a `SyncResult`: on every completed run the result either is a
success with no error or carries `success = false` and an error message;
(2) any error thrown inside its body is converted into the failure
result carrying that message; (3) when tenant enumeration succeeds,
`sincronizarTodasEmpresas` returns one result per active tenant,
without aborting on a tenant's failure; (4) but when the enumeration
phase itself throws, the error propagates to the caller instead of a
list. -/
theorem claim_C7_amended :
    (∀ (env : SyncEnv) (t : Nat) (nome : String) (db : List MirrorRow)
        (r : SyncResult) (db' : List MirrorRow),
      sincronizarCabecalhoNotaPorEmpresa env t nome db = some (r, db') →
      (r.success = true ∧ r.erro = none) ∨
        (r.success = false ∧ r.erro ≠ none)) ∧
    (∀ (env : SyncEnv) (t : Nat) (nome : String) (db : List MirrorRow)
        (m : String),
      sincronizarBody env t nome db = some (Except.error m) →
      sincronizarCabecalhoNotaPorEmpresa env t nome db =
        some (failResult t nome m, db) ∧
      (failResult t nome m).success = false ∧
      (failResult t nome m).erro = some m) ∧
    (∀ (tenants : List (Nat × String)) (envOf : Nat → SyncEnv)
        (db : List MirrorRow) (rs : List SyncResult) (db2 : List MirrorRow),
      sincronizarTodasEmpresas (Except.ok tenants) envOf db =
        some (Except.ok (rs, db2)) →
      rs.length = tenants.length) ∧
    (∀ (m : String) (envOf : Nat → SyncEnv) (db : List MirrorRow),
      sincronizarTodasEmpresas (Except.error m) envOf db =
        some (Except.error m)) := by
  refine ⟨?_, ?_, ?_, fun m envOf db => rfl⟩
  · intro env t nome db r db' h
    unfold sincronizarCabecalhoNotaPorEmpresa at h
    cases hbody : sincronizarBody env t nome db with
    | none => simp [hbody] at h
    | some res =>
      cases res with
      | ok p =>
        simp only [hbody, Option.some.injEq] at h
        obtain ⟨q, dbq⟩ := p
        rw [Prod.mk.injEq] at h
        left
        rw [← h.1]
        exact sincronizarBody_ok_shape env t nome db q dbq hbody
      | error m =>
        simp only [hbody, Option.some.injEq, Prod.mk.injEq] at h
        right
        rw [← h.1]
        exact ⟨rfl, by simp [failResult]⟩
  · intro env t nome db m h
    refine ⟨?_, rfl, rfl⟩
    simp [sincronizarCabecalhoNotaPorEmpresa, h]
  · intro tenants envOf db rs db2 h
    unfold sincronizarTodasEmpresas at h
    cases hr : runTenants envOf db tenants with
    | none => simp [hr] at h
    | some p =>
      obtain ⟨rs', db''⟩ := p
      simp only [hr, Option.some.injEq, Except.ok.injEq, Prod.mk.injEq] at h
      rw [← h.1]
      exact runTenants_length envOf tenants db rs' db'' hr

/-- Claim C7, witness: two active tenants whose token renewal fails —
the fleet run still returns one (failed) result per tenant. -/
theorem claim_C7_witness :
    ([failResult 1 ("A") ("jwt expired"),
      failResult 2 ("B") ("jwt expired")] : List SyncResult).length =
      ([(1, ("A")), (2, ("B"))] : List (Nat × String)).length :=
  claim_C7_amended.2.2.1 [(1, ("A")), (2, ("B"))] (fun _ => failTokenEnv) []
    [failResult 1 ("A") ("jwt expired"), failResult 2 ("B") ("jwt expired")]
    [] rfl
